import Mathlib

/-!
Verification development for the Game Top-up API backend (main.py, schemas.py).

The store is a document database with three collections (game, topupoption,
order).  Documents are modelled as association lists from field names to a
small value type; handlers are modelled as functions from a request and the
store state to a response together with the resulting store state.  An
uncaught Python exception is modelled as the `uncaught` failure variant; a
FastAPI HTTPException with a status code is modelled as the `http` variant.
-/

/-- A field value stored in a document: strings, numerics (Python int and
float are both modelled as rationals), ObjectId values (carried as their
24-character lowercase hex form), datetime values (carried together with the
text of their isoformat), and Python None. -/
inductive Value where
  | vStr : String → Value
  | vNum : Rat → Value
  | vOid : String → Value
  | vDateTime : String → Value
  | vNull : Value
deriving DecidableEq, Repr

/-- A document is a Python dict: an association list of field name and value,
keys unique and in insertion order. -/
abbrev Doc := List (String × Value)

/-- Lookup of a key in a document, first occurrence. -/
def Doc.get? (d : Doc) (k : String) : Option Value :=
  match d with
  | [] => none
  | p :: rest => if p.1 = k then some p.2 else Doc.get? rest k

/-- Python `k in dict` test. -/
def Doc.containsKey (d : Doc) (k : String) : Bool :=
  d.any (fun p => decide (p.1 = k))

/-- Python dict assignment by key: overwrite in place when the key exists,
append a fresh binding at the end otherwise. -/
def Doc.set (d : Doc) (k : String) (v : Value) : Doc :=
  if Doc.containsKey d k then d.map (fun p => if p.1 = k then (k, v) else p)
  else d ++ [(k, v)]

/-- Python dict.pop of a key: removes the binding of that key. -/
def Doc.erase (d : Doc) (k : String) : Doc :=
  d.filter (fun p => !decide (p.1 = k))

/-- Python str() as used on the value of the internal identifier field in
main.py to_serializable: str of an ObjectId is its hex string and str of None
is the text None; the other cases do not occur at that call site. -/
def pyStr : Value → String
  | Value.vOid s => s
  | Value.vNull => "None"
  | Value.vStr s => s
  | Value.vNum q => toString q
  | Value.vDateTime iso => iso

/-- Conversion applied by the datetime loop of to_serializable to one value:
datetime and date values are replaced by their isoformat text, every other
value is untouched. -/
def dtConv : Value → Value
  | Value.vDateTime iso => Value.vStr iso
  | v => v

/-- main.py lines 31 to 44: to_serializable.  An empty or absent document is
falsy and is returned unchanged; otherwise the public id field is set to the
str of the internal identifier, the internal field is removed, and datetime
valued fields are replaced by their isoformat text. -/
def to_serializable (doc : Doc) : Doc :=
  if doc.isEmpty then doc
  else
    let withId := Doc.set doc "id" (Value.vStr (pyStr ((Doc.get? doc "_id").getD Value.vNull)))
    let dropped := Doc.erase withId "_id"
    dropped.map (fun p => (p.1, dtConv p.2))

/-- Hex digit characters, lowercase, as produced for store identifiers. -/
def hexChar : Nat → Char
  | 0 => '0'
  | 1 => '1'
  | 2 => '2'
  | 3 => '3'
  | 4 => '4'
  | 5 => '5'
  | 6 => '6'
  | 7 => '7'
  | 8 => '8'
  | 9 => '9'
  | 10 => 'a'
  | 11 => 'b'
  | 12 => 'c'
  | 13 => 'd'
  | 14 => 'e'
  | _ => 'f'

/-- Hex digit expansion of a natural number, most significant digit first. -/
def natToHexAux (n : Nat) : List Char :=
  if _h : n < 16 then [hexChar n]
  else natToHexAux (n / 16) ++ [hexChar (n % 16)]
decreasing_by exact Nat.div_lt_self (by omega) (by omega)

/-- Modelled from the spec: section 3 states that every stored record gets a
store generated identifier, unique within its collection.  The n-th generated
identifier is the 24-character lowercase hex ObjectId string with value n. -/
def genId (n : Nat) : String :=
  String.mk (List.replicate (24 - (natToHexAux n).length) '0' ++ natToHexAux n)

/-- Python str.lower applied characterwise, modelling the case normalization
bson performs on hex ObjectId strings. -/
def strLower (s : String) : String := String.mk (s.data.map Char.toLower)

/-- A hex digit test covering both cases. -/
def isHexDigitChar (c : Char) : Bool :=
  (('0' ≤ c) && (c ≤ '9')) || (('a' ≤ c) && (c ≤ 'f')) || (('A' ≤ c) && (c ≤ 'F'))

/-- bson accepts a string as an ObjectId exactly when it is 24 hex digits;
ObjectId raises InvalidId otherwise. -/
def isValidObjectId (s : String) : Bool :=
  (s.data.length = 24 : Bool) && s.data.all isHexDigitChar

/-- The document store state: the three collections used by the application
(game, topupoption, order), each in insertion order, plus the counter feeding
store identifier generation. -/
structure Store where
  game : List Doc
  topupoption : List Doc
  order : List Doc
  nextId : Nat
deriving DecidableEq, Repr

def emptyStore : Store := ⟨[], [], [], 0⟩

/-- The collection of a store under its name; the application only ever uses
the three collection names below. -/
def Store.coll (s : Store) (c : String) : List Doc :=
  if c = "game" then s.game
  else if c = "topupoption" then s.topupoption
  else if c = "order" then s.order
  else []

/-- A document matches a pymongo equality filter when every filter field is
present in the document with the given value. -/
def matchesFilter (d : Doc) (flt : Doc) : Bool :=
  flt.all (fun p => decide (Doc.get? d p.1 = some p.2))

/-- pymongo find_one: the first document of the collection matching the
filter, if any. -/
def find_one (docs : List Doc) (flt : Doc) : Option Doc :=
  docs.find? (fun d => matchesFilter d flt)

/-- pymongo count_documents: the number of documents matching the filter. -/
def count_documents (docs : List Doc) (flt : Doc) : Nat :=
  (docs.filter (fun d => matchesFilter d flt)).length

/-- Modelled from the spec: database.py is imported by main.py but is not
part of the sources; spec section 4.1 specifies create_document(collection,
record) as inserting the record into the collection and returning the newly
generated identifier string.  The store assigns the fresh identifier as the
leading internal field of the persisted document. -/
def create_document (s : Store) (c : String) (d : Doc) : String × Store :=
  let oid := genId s.nextId
  let stored := ("_id", Value.vOid oid) :: d
  let s2 :=
    if c = "game" then { s with game := s.game ++ [stored], nextId := s.nextId + 1 }
    else if c = "topupoption" then { s with topupoption := s.topupoption ++ [stored], nextId := s.nextId + 1 }
    else if c = "order" then { s with order := s.order ++ [stored], nextId := s.nextId + 1 }
    else { s with nextId := s.nextId + 1 }
  (oid, s2)

/-- Modelled from the spec: database.py is not part of the sources; spec
section 4.1 specifies get_documents(collection, filter) as returning the
ordered sequence of all documents of the collection matching the filter, or
all documents when the filter is empty or absent. -/
def get_documents (s : Store) (c : String) (flt : Doc) : List Doc :=
  (Store.coll s c).filter (fun d => matchesFilter d flt)

/-- Python truthiness of a find_one result: None and the empty dict are
falsy. -/
def truthy : Option Doc → Bool
  | none => false
  | some d => !d.isEmpty

/-- A handler failure: an HTTPException with status code and detail, or an
uncaught Python exception (surfaced by the framework as a server error). -/
inductive HandlerFailure where
  | http : Nat → String → HandlerFailure
  | uncaught : String → HandlerFailure
deriving DecidableEq, Repr

/-- Whether a handler outcome is an HTTPException based response at all. -/
def isHttpFailure : Except HandlerFailure Doc → Bool
  | Except.error (HandlerFailure.http _ _) => true
  | _ => false

/-- Whether a handler outcome is a success. -/
def isOkResult : Except HandlerFailure Doc → Bool
  | Except.ok _ => true
  | _ => false

/-- The document of a successful handler outcome. -/
def resultDoc : Except HandlerFailure Doc → Doc
  | Except.ok d => d
  | Except.error _ => []

/-- The request body of POST /api/orders (main.py lines 113 to 118). -/
structure CreateOrder where
  game_id : String
  option_id : String
  player_id : String
  region : Option String
  payment_method : String
deriving DecidableEq, Repr

/-- A Python optional string as a stored value: None becomes null. -/
def optStrValue : Option String → Value
  | none => Value.vNull
  | some s => Value.vStr s

/-- Python float() as applied to option.get on the order creation path; the
argument there is always numeric (the int default 0 or a stored number). -/
def pyFloatVal : Value → Rat
  | Value.vNum q => q
  | _ => 0

/-- Python int() as applied to option.get on the order creation path:
truncation toward zero of a numeric value. -/
def pyIntVal : Value → Int
  | Value.vNum q => q.num.tdiv (q.den : Int)
  | _ => 0

/-- The order document built by create_order (main.py lines 128 to 137)
before insertion: amount and credits are copied from the resolved option
document with defaults 0 and 0 when the fields are absent. -/
def orderDoc (p : CreateOrder) (option : Doc) : Doc :=
  [("game_id", Value.vStr p.game_id),
   ("option_id", Value.vStr p.option_id),
   ("player_id", Value.vStr p.player_id),
   ("region", optStrValue p.region),
   ("payment_method", Value.vStr p.payment_method),
   ("status", Value.vStr "pending"),
   ("amount", Value.vNum (pyFloatVal ((Doc.get? option "amount").getD (Value.vNum 0)))),
   ("credits", Value.vNum ((pyIntVal ((Doc.get? option "credits").getD (Value.vNum 0)) : Int) : Rat))]

/-- main.py lines 121 to 140: POST /api/orders.  ObjectId(payload.option_id)
is evaluated before the store lookup and raises InvalidId, uncaught by this
handler, when the id is not well formed; a falsy lookup result raises
HTTPException 404; otherwise the order document is inserted and the fresh
document is read back and serialized. -/
def create_order (s : Store) (p : CreateOrder) : Except HandlerFailure Doc × Store :=
  if isValidObjectId p.option_id = false then
    (Except.error (HandlerFailure.uncaught "Invalid ObjectId"), s)
  else
    let option := find_one s.topupoption [("_id", Value.vOid (strLower p.option_id))]
    if truthy option = false then
      (Except.error (HandlerFailure.http 404 "Top-up option not found"), s)
    else
      let res := create_document s "order" (orderDoc p (option.getD []))
      let created := find_one res.2.order [("_id", Value.vOid (strLower res.1))]
      (Except.ok (to_serializable (created.getD [])), res.2)

/-- The try block of main.py lines 145 to 149: ObjectId(order_id) raises
InvalidId on a malformed id, a falsy lookup raises HTTPException 404, and a
found order is serialized and returned. -/
def get_order_body (s : Store) (order_id : String) : Except HandlerFailure Doc :=
  if isValidObjectId order_id = false then
    Except.error (HandlerFailure.uncaught "Invalid ObjectId")
  else
    let doc := find_one s.order [("_id", Value.vOid (strLower order_id))]
    if truthy doc = false then Except.error (HandlerFailure.http 404 "Order not found")
    else Except.ok (to_serializable (doc.getD []))

/-- main.py lines 143 to 151: GET /api/orders/{ob}id{cb} where ob and cb
stand for braces.  The blanket except Exception of line 150 catches every
failure of the try block, including the HTTPException 404 the block itself
raises for a missing order, and turns it into HTTPException 400. -/
def get_order (s : Store) (order_id : String) : Except HandlerFailure Doc × Store :=
  match get_order_body s order_id with
  | Except.ok d => (Except.ok d, s)
  | Except.error _ => (Except.error (HandlerFailure.http 400 "Invalid order id"), s)

/-- main.py lines 93 to 96: GET /api/games. -/
def list_games (s : Store) : List Doc × Store :=
  ((get_documents s "game" []).map to_serializable, s)

/-- main.py lines 99 to 104: GET /api/games by code. -/
def get_game_by_code (s : Store) (game_code : String) : Except HandlerFailure Doc × Store :=
  let doc := find_one s.game [("code", Value.vStr game_code)]
  if truthy doc = false then (Except.error (HandlerFailure.http 404 "Game not found"), s)
  else (Except.ok (to_serializable (doc.getD [])), s)

/-- main.py lines 107 to 110: GET options of a game id. -/
def list_options (s : Store) (game_id : String) : List Doc × Store :=
  ((get_documents s "topupoption" [("game_id", Value.vStr game_id)]).map to_serializable, s)

/-- The seed request body items (main.py lines 52 to 56). -/
structure SeedGame where
  name : String
  code : String
  image : Option String
  publisher : Option String
deriving DecidableEq, Repr

/-- The built in seed list of main.py lines 157 to 161. -/
def defaultSeedGames : List SeedGame :=
  [⟨"Mobile Legends", "mlbb", some "https://i.imgur.com/Kk2r6sG.png", some "Moonton"⟩,
   ⟨"PUBG Mobile", "pubgm", some "https://i.imgur.com/7nYVJr9.png", some "Tencent"⟩,
   ⟨"Free Fire", "ff", some "https://i.imgur.com/4J2hX3E.png", some "Garena"⟩]

/-- model_dump of a seed game: its four fields as a document. -/
def seedGameDoc (g : SeedGame) : Doc :=
  [("name", Value.vStr g.name), ("code", Value.vStr g.code),
   ("image", optStrValue g.image), ("publisher", optStrValue g.publisher)]

/-- The first seed loop (main.py lines 163 to 171): per descriptor, a game
with the same code is reused, otherwise the game is inserted and read back;
the serialized document is appended to the accumulator either way. -/
def seedGamesLoop : List SeedGame → Store → List Doc → List Doc × Store
  | [], s, acc => (acc, s)
  | g :: rest, s, acc =>
    let existing := find_one s.game [("code", Value.vStr g.code)]
    if truthy existing then
      seedGamesLoop rest s (acc ++ [to_serializable (existing.getD [])])
    else
      let res := create_document s "game" (seedGameDoc g)
      let created := find_one res.2.game [("_id", Value.vOid (strLower res.1))]
      seedGamesLoop rest res.2 (acc ++ [to_serializable (created.getD [])])

/-- The four fixed option presets of main.py lines 176 to 181. -/
def presets : List Doc :=
  [[("title", Value.vStr "86 Diamonds"), ("amount", Value.vNum (1.59 : Rat)), ("credits", Value.vNum (86 : Rat))],
   [("title", Value.vStr "172 Diamonds"), ("amount", Value.vNum (3.09 : Rat)), ("credits", Value.vNum (172 : Rat))],
   [("title", Value.vStr "257 Diamonds"), ("amount", Value.vNum (4.59 : Rat)), ("credits", Value.vNum (257 : Rat))],
   [("title", Value.vStr "500 Diamonds"), ("amount", Value.vNum (8.99 : Rat)), ("credits", Value.vNum (500 : Rat))]]

/-- Subscript access to the id field of a serialized game document, always a
string there because to_serializable sets it. -/
def getStrField (d : Doc) (k : String) : String :=
  match Doc.get? d k with
  | some (Value.vStr s) => s
  | _ => ""

/-- The second seed loop (main.py lines 174 to 186): for each created or
reused game document whose id matches no stored option, the four presets are
inserted with the game id as the leading field. -/
def seedOptionsLoop : List Doc → Store → Store
  | [], s => s
  | game :: rest, s =>
    let gid := getStrField game "id"
    let s2 :=
      if count_documents s.topupoption [("game_id", Value.vStr gid)] = 0 then
        presets.foldl (fun st p => (create_document st "topupoption" (("game_id", Value.vStr gid) :: p)).2) s
      else s
    seedOptionsLoop rest s2

/-- main.py lines 155 to 188: POST /api/seed.  A missing or empty body list
is falsy, so the built in defaults are used; then both loops run and the
accumulated game documents are returned. -/
def seed_data (s : Store) (games : Option (List SeedGame)) : List Doc × Store :=
  let input :=
    match games with
    | some gs => if gs.isEmpty then defaultSeedGames else gs
    | none => defaultSeedGames
  let r := seedGamesLoop input s []
  (r.1, seedOptionsLoop r.1 r.2)

/-- The number of Game records whose code field holds the given code. -/
def countGamesWithCode (s : Store) (code : String) : Nat :=
  (s.game.filter (fun d => decide (Doc.get? d "code" = some (Value.vStr code)))).length

/-- Store growth: every document of every collection of the first store is
still present in the second. -/
def StoreExtends (s t : Store) : Prop :=
  (∀ d, d ∈ s.game → d ∈ t.game) ∧
  (∀ d, d ∈ s.topupoption → d ∈ t.topupoption) ∧
  (∀ d, d ∈ s.order → d ∈ t.order)

theorem matchesFilter_singleton (d : Doc) (k : String) (v : Value) :
    matchesFilter d [(k, v)] = decide (Doc.get? d k = some v) := by
  simp [matchesFilter]

theorem get?_append (l m : Doc) (k : String) :
    Doc.get? (l ++ m) k = match Doc.get? l k with
      | some v => some v
      | none => Doc.get? m k := by
  induction l with
  | nil => simp [Doc.get?]
  | cons p rest ih =>
    by_cases h : p.1 = k <;> simp [Doc.get?, h, ih]

theorem containsKey_false_get?_none (d : Doc) (k : String)
    (h : Doc.containsKey d k = false) : Doc.get? d k = none := by
  induction d with
  | nil => rfl
  | cons p rest ih =>
    simp [Doc.containsKey, List.any_cons] at h
    simp [Doc.get?, h.1, ih (by simpa [Doc.containsKey] using h.2)]

theorem get?_map_overwrite_self (d : Doc) (k : String) (v : Value)
    (h : Doc.containsKey d k = true) :
    Doc.get? (d.map (fun p => if p.1 = k then (k, v) else p)) k = some v := by
  induction d with
  | nil => simp [Doc.containsKey] at h
  | cons p rest ih =>
    by_cases hp : p.1 = k
    · simp [Doc.get?, hp]
    · simp [Doc.containsKey, List.any_cons, hp] at h
      simp [Doc.get?, hp, ih (by simpa [Doc.containsKey] using h)]

theorem get?_set_self (d : Doc) (k : String) (v : Value) :
    Doc.get? (Doc.set d k v) k = some v := by
  unfold Doc.set
  by_cases h : Doc.containsKey d k = true
  · simp [h, get?_map_overwrite_self d k v h]
  · have hf : Doc.containsKey d k = false := by revert h; cases Doc.containsKey d k <;> simp
    rw [hf]
    simp only [Bool.false_eq_true, if_false]
    rw [get?_append]
    rw [containsKey_false_get?_none d k hf]
    simp [Doc.get?]

theorem get?_map_overwrite_other (d : Doc) (k k2 : String) (v : Value) (h : k2 ≠ k) :
    Doc.get? (d.map (fun p => if p.1 = k then (k, v) else p)) k2 = Doc.get? d k2 := by
  induction d with
  | nil => rfl
  | cons p rest ih =>
    by_cases hp : p.1 = k
    · have hk2 : k ≠ k2 := fun hh => h hh.symm
      have hp2 : p.1 ≠ k2 := by rw [hp]; exact hk2
      simp [Doc.get?, hp, hk2, hp2, ih]
    · have hmap : (if p.1 = k then (k, v) else p) = p := if_neg hp
      simp only [List.map_cons, hmap, Doc.get?]
      by_cases hq : p.1 = k2
      · simp [hq]
      · simp [hq, ih]

theorem get?_set_other (d : Doc) (k k2 : String) (v : Value) (h : k2 ≠ k) :
    Doc.get? (Doc.set d k v) k2 = Doc.get? d k2 := by
  unfold Doc.set
  by_cases hc : Doc.containsKey d k = true
  · simp only [hc, if_true]
    exact get?_map_overwrite_other d k k2 v h
  · have hf : Doc.containsKey d k = false := by revert hc; cases Doc.containsKey d k <;> simp
    rw [hf]
    simp only [Bool.false_eq_true, if_false]
    rw [get?_append]
    cases hg : Doc.get? d k2 with
    | some w => rfl
    | none =>
      have hk : ¬ k = k2 := fun hh => h hh.symm
      simp [Doc.get?, hk]

theorem get?_erase_self (d : Doc) (k : String) :
    Doc.get? (Doc.erase d k) k = none := by
  induction d with
  | nil => rfl
  | cons p rest ih =>
    by_cases hp : p.1 = k
    · have hstep : Doc.erase (p :: rest) k = Doc.erase rest k := by
        simp [Doc.erase, List.filter_cons, hp]
      rw [hstep]; exact ih
    · have hstep : Doc.erase (p :: rest) k = p :: Doc.erase rest k := by
        simp [Doc.erase, List.filter_cons, hp]
      rw [hstep]; simp [Doc.get?, hp, ih]

theorem get?_erase_other (d : Doc) (k k2 : String) (h : k2 ≠ k) :
    Doc.get? (Doc.erase d k) k2 = Doc.get? d k2 := by
  induction d with
  | nil => rfl
  | cons p rest ih =>
    by_cases hp : p.1 = k
    · have hpk2 : ¬ p.1 = k2 := by rw [hp]; exact fun hh => h hh.symm
      have hstep : Doc.erase (p :: rest) k = Doc.erase rest k := by
        simp [Doc.erase, List.filter_cons, hp]
      rw [hstep, ih]
      simp [Doc.get?, hpk2]
    · have hstep : Doc.erase (p :: rest) k = p :: Doc.erase rest k := by
        simp [Doc.erase, List.filter_cons, hp]
      rw [hstep]
      by_cases hq : p.1 = k2 <;> simp [Doc.get?, hq, ih]

theorem get?_dtMap (d : Doc) (k : String) :
    Doc.get? (d.map (fun p => (p.1, dtConv p.2))) k = (Doc.get? d k).map dtConv := by
  induction d with
  | nil => rfl
  | cons p rest ih =>
    by_cases hp : p.1 = k <;> simp [Doc.get?, hp, ih]

theorem toLower_hexChar (d : Nat) : Char.toLower (hexChar d) = hexChar d := by
  match d with
  | 0 | 1 | 2 | 3 | 4 | 5 | 6 | 7 | 8 | 9 | 10 | 11 | 12 | 13 | 14 => decide
  | n + 15 =>
    show Char.toLower 'f' = 'f'
    decide

theorem natToHexAux_toLower (n : Nat) :
    (natToHexAux n).map Char.toLower = natToHexAux n := by
  induction n using Nat.strong_induction_on with
  | _ n ih =>
    unfold natToHexAux
    split
    · simp [toLower_hexChar]
    · rename_i h
      rw [List.map_append, ih (n / 16) (Nat.div_lt_self (by omega) (by omega))]
      simp [toLower_hexChar]

theorem strLower_genId (n : Nat) : strLower (genId n) = genId n := by
  unfold strLower genId
  simp only [String.data]
  rw [List.map_append, List.map_replicate, natToHexAux_toLower]
  have h0 : Char.toLower '0' = '0' := by decide
  rw [h0]

theorem create_document_game_coll (s : Store) (d : Doc) :
    (create_document s "game" d).2.game
      = s.game ++ [("_id", Value.vOid (genId s.nextId)) :: d] := rfl

theorem create_document_game_other (s : Store) (d : Doc) :
    (create_document s "game" d).2.topupoption = s.topupoption ∧
    (create_document s "game" d).2.order = s.order := ⟨rfl, rfl⟩

theorem create_document_topupoption_coll (s : Store) (d : Doc) :
    (create_document s "topupoption" d).2.topupoption
      = s.topupoption ++ [("_id", Value.vOid (genId s.nextId)) :: d] := rfl

theorem create_document_topupoption_other (s : Store) (d : Doc) :
    (create_document s "topupoption" d).2.game = s.game ∧
    (create_document s "topupoption" d).2.order = s.order := ⟨rfl, rfl⟩

theorem create_document_order_coll (s : Store) (d : Doc) :
    (create_document s "order" d).2.order
      = s.order ++ [("_id", Value.vOid (genId s.nextId)) :: d] := rfl

theorem create_document_order_other (s : Store) (d : Doc) :
    (create_document s "order" d).2.game = s.game ∧
    (create_document s "order" d).2.topupoption = s.topupoption := ⟨rfl, rfl⟩

theorem storeExtends_refl (s : Store) : StoreExtends s s :=
  ⟨fun _ h => h, fun _ h => h, fun _ h => h⟩

theorem storeExtends_trans {a b c : Store}
    (h1 : StoreExtends a b) (h2 : StoreExtends b c) : StoreExtends a c :=
  ⟨fun d hd => h2.1 d (h1.1 d hd),
   fun d hd => h2.2.1 d (h1.2.1 d hd),
   fun d hd => h2.2.2 d (h1.2.2 d hd)⟩

theorem storeExtends_create_document (s : Store) (c : String) (dd : Doc) :
    StoreExtends s (create_document s c dd).2 := by
  unfold create_document StoreExtends
  split_ifs <;>
    exact ⟨fun d hd => by simp only; first | exact hd | exact List.mem_append_left _ hd,
           fun d hd => by simp only; first | exact hd | exact List.mem_append_left _ hd,
           fun d hd => by simp only; first | exact hd | exact List.mem_append_left _ hd⟩

theorem storeExtends_foldl_topupoption (l : List Doc) (s : Store) (f : Doc → Doc) :
    StoreExtends s
      (l.foldl (fun st p => (create_document st "topupoption" (f p)).2) s) := by
  induction l generalizing s with
  | nil => exact storeExtends_refl s
  | cons p rest ih =>
    exact storeExtends_trans (storeExtends_create_document s "topupoption" (f p))
      (ih _)

theorem storeExtends_seedOptionsLoop (gs : List Doc) (s : Store) :
    StoreExtends s (seedOptionsLoop gs s) := by
  induction gs generalizing s with
  | nil => exact storeExtends_refl s
  | cons g rest ih =>
    unfold seedOptionsLoop
    dsimp only
    split_ifs
    · exact storeExtends_trans (storeExtends_foldl_topupoption presets s _) (ih _)
    · exact ih s

theorem storeExtends_seedGamesLoop (gs : List SeedGame) (s : Store) (acc : List Doc) :
    StoreExtends s (seedGamesLoop gs s acc).2 := by
  induction gs generalizing s acc with
  | nil => exact storeExtends_refl s
  | cons g rest ih =>
    unfold seedGamesLoop
    dsimp only
    split_ifs
    · exact ih s _
    · exact storeExtends_trans (storeExtends_create_document s "game" (seedGameDoc g))
        (ih _ _)

theorem storeExtends_seed_data (s : Store) (games : Option (List SeedGame)) :
    StoreExtends s (seed_data s games).2 := by
  unfold seed_data
  exact storeExtends_trans (storeExtends_seedGamesLoop _ s [])
    (storeExtends_seedOptionsLoop _ _)

theorem storeExtends_create_order (s : Store) (p : CreateOrder) :
    StoreExtends s (create_order s p).2 := by
  unfold create_order
  by_cases h1 : isValidObjectId p.option_id = false
  · rw [if_pos h1]; exact storeExtends_refl s
  · rw [if_neg h1]
    by_cases h2 : truthy (find_one s.topupoption [("_id", Value.vOid (strLower p.option_id))]) = false
    · rw [if_pos h2]; exact storeExtends_refl s
    · rw [if_neg h2]; exact storeExtends_create_document s "order" _

/-- Claim C1: the spec requires GET of an order by id to answer not found
(404) for a well-formed id with no matching Order, invalid identifier (400)
for a malformed id, and the serialized Order otherwise.  The handler code
intends this (it raises HTTPException 404 at line 148), but its blanket
except turns its own 404 into 400: at the failing input below, a well-formed
identifier with an empty order collection, the handler answers 400. -/
theorem C1_get_order_404_swallowed :
    isValidObjectId "0123456789abcdef01234567" = true ∧
    find_one emptyStore.order [("_id", Value.vOid (strLower "0123456789abcdef01234567"))] = none ∧
    get_order emptyStore "0123456789abcdef01234567"
      = (Except.error (HandlerFailure.http 400 "Invalid order id"), emptyStore) :=
  ⟨by decide, rfl, rfl⟩

/-- Claim C2 counterexample: POST /api/orders with the malformed option_id
xyz does not produce any HTTPException based client-facing failure; the
InvalidId error escapes the handler uncaught. -/
theorem C2_counterexample :
    (create_order emptyStore ⟨"g1", "xyz", "p1", none, "card"⟩).1
        = Except.error (HandlerFailure.uncaught "Invalid ObjectId") ∧
    isHttpFailure (create_order emptyStore ⟨"g1", "xyz", "p1", none, "card"⟩).1 = false :=
  ⟨rfl, rfl⟩

/-- Claim C2 as amended: a malformed option_id raises the invalid-identifier
error synchronously, before any store access (the store is returned
unchanged and nothing is inserted), but the error propagates as an uncaught
exception rather than as a client-facing HTTP status. -/
theorem C2_invalid_id_uncaught (s : Store) (p : CreateOrder)
    (h : isValidObjectId p.option_id = false) :
    create_order s p = (Except.error (HandlerFailure.uncaught "Invalid ObjectId"), s) ∧
    isHttpFailure (create_order s p).1 = false := by
  have hc : create_order s p
      = (Except.error (HandlerFailure.uncaught "Invalid ObjectId"), s) := by
    unfold create_order
    rw [if_pos h]
  refine ⟨hc, ?_⟩
  rw [hc]
  rfl

theorem C2_invalid_id_uncaught_witness :
    isValidObjectId "xyz" = false ∧
    create_order emptyStore ⟨"g2", "xyz", "p2", none, "upi"⟩
        = (Except.error (HandlerFailure.uncaught "Invalid ObjectId"), emptyStore) :=
  ⟨by decide,
   (C2_invalid_id_uncaught emptyStore ⟨"g2", "xyz", "p2", none, "upi"⟩ (by decide)).1⟩

/-- Claim C4: POST /api/orders with a well-formed option_id resolving to no
TopupOption answers the 404 failure and leaves the store, in particular the
order collection, unchanged. -/
theorem C4_not_found_no_insert (s : Store) (p : CreateOrder)
    (hv : isValidObjectId p.option_id = true)
    (hmiss : truthy (find_one s.topupoption [("_id", Value.vOid (strLower p.option_id))]) = false) :
    create_order s p = (Except.error (HandlerFailure.http 404 "Top-up option not found"), s) ∧
    (create_order s p).2.order = s.order := by
  have h1 : ¬ isValidObjectId p.option_id = false := by rw [hv]; simp
  have hc : create_order s p
      = (Except.error (HandlerFailure.http 404 "Top-up option not found"), s) := by
    unfold create_order
    rw [if_neg h1]
    dsimp only
    rw [if_pos hmiss]
  refine ⟨hc, ?_⟩
  rw [hc]

theorem C4_not_found_no_insert_witness :
    isValidObjectId "ffffffffffffffffffffffff" = true ∧
    create_order emptyStore ⟨"g1", "ffffffffffffffffffffffff", "p1", some "IN", "card"⟩
        = (Except.error (HandlerFailure.http 404 "Top-up option not found"), emptyStore) :=
  ⟨by decide,
   (C4_not_found_no_insert emptyStore ⟨"g1", "ffffffffffffffffffffffff", "p1", some "IN", "card"⟩
     (by decide) (by decide)).1⟩

theorem filter_matchesFilter_singleton (l : List Doc) (k : String) (v : Value) :
    l.filter (fun d => matchesFilter d [(k, v)])
      = l.filter (fun d => decide (Doc.get? d k = some v)) := by
  induction l with
  | nil => rfl
  | cons d rest ih => simp [List.filter_cons, matchesFilter_singleton, ih]

theorem coll_topupoption (s : Store) : Store.coll s "topupoption" = s.topupoption := rfl

/-- Claim C9: the serialization helper applied to an empty mapping returns
it unchanged: the falsy check short-circuits, so no id field is added and no
internal field is removed. -/
theorem C9_empty_doc_unchanged :
    to_serializable ([] : Doc) = ([] : Doc) ∧
    Doc.get? (to_serializable ([] : Doc)) "id" = none ∧
    Doc.containsKey (to_serializable ([] : Doc)) "id" = false :=
  ⟨rfl, rfl, rfl⟩

/-- Claim C7: the options listing returns exactly the serialized TopupOption
documents whose game_id field equals the path id, in store order, as a plain
list (never a failure), leaves the store unchanged, and performs no
existence check on the game: its output is unaffected by the game
collection. -/
theorem C7_list_options_exact (s : Store) (game_id : String) (gameDocs : List Doc) :
    list_options s game_id
      = ((s.topupoption.filter
            (fun d => decide (Doc.get? d "game_id" = some (Value.vStr game_id)))).map
          to_serializable, s) ∧
    (list_options { s with game := gameDocs } game_id).1 = (list_options s game_id).1 := by
  constructor
  · unfold list_options get_documents
    rw [coll_topupoption, filter_matchesFilter_singleton]
  · rfl

/-- Claim C8: no handler updates or deletes a stored document.  The four
read handlers return the store unchanged, and the two writing handlers
(order creation and seeding) only ever append: every document present in any
collection beforehand is still present afterwards. -/
theorem C8_handlers_never_update_or_delete (s : Store) (p : CreateOrder)
    (game_code game_id order_id : String) (games : Option (List SeedGame)) :
    (list_games s).2 = s ∧
    (get_game_by_code s game_code).2 = s ∧
    (list_options s game_id).2 = s ∧
    (get_order s order_id).2 = s ∧
    StoreExtends s (create_order s p).2 ∧
    StoreExtends s (seed_data s games).2 := by
  refine ⟨rfl, ?_, rfl, ?_, storeExtends_create_order s p, storeExtends_seed_data s games⟩
  · unfold get_game_by_code
    dsimp only
    split_ifs <;> rfl
  · unfold get_order
    cases get_order_body s order_id <;> rfl

theorem isEmpty_false_of_ne_nil {d : Doc} (hne : d ≠ []) : ¬ (d.isEmpty = true) := by
  cases d with
  | nil => exact absurd rfl hne
  | cons a l => simp

theorem get?_to_serializable_id_gone (d : Doc) (hne : d ≠ []) :
    Doc.get? (to_serializable d) "_id" = none := by
  unfold to_serializable
  rw [if_neg (isEmpty_false_of_ne_nil hne)]
  dsimp only
  rw [get?_dtMap, get?_erase_self]
  rfl

theorem get?_to_serializable_id (d : Doc) (hne : d ≠ []) :
    Doc.get? (to_serializable d) "id"
      = some (Value.vStr (pyStr ((Doc.get? d "_id").getD Value.vNull))) := by
  unfold to_serializable
  rw [if_neg (isEmpty_false_of_ne_nil hne)]
  dsimp only
  rw [get?_dtMap, get?_erase_other _ _ _ (by decide), get?_set_self]
  rfl

theorem get?_to_serializable_other (d : Doc) (k : String) (hne : d ≠ [])
    (hk1 : k ≠ "_id") (hk2 : k ≠ "id") :
    Doc.get? (to_serializable d) k = (Doc.get? d k).map dtConv := by
  unfold to_serializable
  rw [if_neg (isEmpty_false_of_ne_nil hne)]
  dsimp only
  rw [get?_dtMap, get?_erase_other _ _ _ hk1, get?_set_other _ _ _ _ hk2]

/-- Claim C6: serializing a stored record, a non-empty document carrying the
store assigned internal identifier, yields a document with no internal
identifier field and with a string id field holding the identifier hex; any
other field whose value is not a datetime passes through unchanged. -/
theorem C6_serialization_round_trip (d : Doc) (idStr : String) (k : String) (v : Value)
    (hne : d ≠ [])
    (hid : Doc.get? d "_id" = some (Value.vOid idStr))
    (hk1 : k ≠ "_id") (hk2 : k ≠ "id")
    (hkv : Doc.get? d k = some v)
    (hdt : dtConv v = v) :
    Doc.get? (to_serializable d) "_id" = none ∧
    Doc.get? (to_serializable d) "id" = some (Value.vStr idStr) ∧
    Doc.get? (to_serializable d) k = some v := by
  refine ⟨get?_to_serializable_id_gone d hne, ?_, ?_⟩
  · rw [get?_to_serializable_id d hne, hid]
    rfl
  · rw [get?_to_serializable_other d k hne hk1 hk2, hkv]
    show some (dtConv v) = some v
    rw [hdt]

def c6Doc : Doc :=
  [("_id", Value.vOid "64a0aa0aa0aa0aa0aa0aa0aa"), ("name", Value.vStr "bob")]

theorem C6_witness :
    Doc.get? (to_serializable c6Doc) "_id" = none ∧
    Doc.get? (to_serializable c6Doc) "id" = some (Value.vStr "64a0aa0aa0aa0aa0aa0aa0aa") ∧
    Doc.get? (to_serializable c6Doc) "name" = some (Value.vStr "bob") :=
  C6_serialization_round_trip c6Doc "64a0aa0aa0aa0aa0aa0aa0aa" "name" (Value.vStr "bob")
    (by decide) (by decide) (by decide) (by decide) (by decide) (by decide)

theorem create_document_order_spec (s : Store) (d : Doc) :
    create_document s "order" d
      = (genId s.nextId,
         { s with order := s.order ++ [("_id", Value.vOid (genId s.nextId)) :: d],
                  nextId := s.nextId + 1 }) := rfl

theorem pyIntVal_intCast (c : Int) : pyIntVal (Value.vNum ((c : Int) : Rat)) = c := by
  have h : pyIntVal (Value.vNum ((c : Int) : Rat))
      = (((c : Int) : Rat)).num.tdiv ((((c : Int) : Rat)).den : Int) := rfl
  rw [h, Rat.num_intCast, Rat.den_intCast]
  simp [Int.tdiv_one]

theorem not_eq_false_of_eq_true {b : Bool} (h : b = true) : ¬ b = false := by
  rw [h]; simp

theorem truthy_some_of_ne_nil {opt : Doc} (hne : opt ≠ []) :
    truthy (some opt) = true := by
  cases opt with
  | nil => exact absurd rfl hne
  | cons a l => rfl

/-- The success path of create_order, fully evaluated: with a well-formed
option_id resolving to a non-empty option document, the handler inserts
exactly one order document built by orderDoc under a fresh identifier, and
the state is otherwise untouched. -/
theorem create_order_success_state (s : Store) (p : CreateOrder) (opt : Doc)
    (hv : isValidObjectId p.option_id = true)
    (hfind : find_one s.topupoption [("_id", Value.vOid (strLower p.option_id))] = some opt)
    (hne : opt ≠ []) :
    (create_order s p).2
      = { s with order := s.order ++ [("_id", Value.vOid (genId s.nextId)) :: orderDoc p opt],
                 nextId := s.nextId + 1 } := by
  have h1 : ¬ isValidObjectId p.option_id = false := not_eq_false_of_eq_true hv
  have h2 : ¬ truthy (find_one s.topupoption [("_id", Value.vOid (strLower p.option_id))]) = false := by
    rw [hfind, truthy_some_of_ne_nil hne]; simp
  unfold create_order
  rw [if_neg h1]
  dsimp only
  rw [if_neg h2, hfind]
  rfl

/-- Claim C10: when the resolved TopupOption document lacks the amount and
credits fields, the inserted order document carries the defaults amount 0
and credits 0 (so an order with credits 0, below the schema minimum of 1 for
Order, is created). -/
theorem C10_missing_fields_default_zero (s : Store) (p : CreateOrder) (opt : Doc)
    (hv : isValidObjectId p.option_id = true)
    (hfind : find_one s.topupoption [("_id", Value.vOid (strLower p.option_id))] = some opt)
    (hne : opt ≠ [])
    (hamt : Doc.get? opt "amount" = none)
    (hcr : Doc.get? opt "credits" = none) :
    (create_order s p).2.order
      = s.order ++ [("_id", Value.vOid (genId s.nextId)) :: orderDoc p opt] ∧
    Doc.get? (orderDoc p opt) "amount" = some (Value.vNum 0) ∧
    Doc.get? (orderDoc p opt) "credits" = some (Value.vNum 0) := by
  refine ⟨by rw [create_order_success_state s p opt hv hfind hne], ?_, ?_⟩
  · have hamount : Doc.get? (orderDoc p opt) "amount"
        = some (Value.vNum (pyFloatVal ((Doc.get? opt "amount").getD (Value.vNum 0)))) := rfl
    rw [hamount, hamt]
    decide
  · have hcredits : Doc.get? (orderDoc p opt) "credits"
        = some (Value.vNum ((pyIntVal ((Doc.get? opt "credits").getD (Value.vNum 0)) : Int) : Rat)) := rfl
    rw [hcredits, hcr]
    decide

def c10Store : Store :=
  ⟨[], [[("_id", Value.vOid "000000000000000000000000"),
         ("game_id", Value.vStr "g1"), ("title", Value.vStr "X")]], [], 7⟩

def c10Payload : CreateOrder := ⟨"g1", "000000000000000000000000", "p1", none, "card"⟩

theorem C10_witness :
    (create_order c10Store c10Payload).2.order
      = c10Store.order
        ++ [("_id", Value.vOid (genId c10Store.nextId))
              :: orderDoc c10Payload [("_id", Value.vOid "000000000000000000000000"),
                                      ("game_id", Value.vStr "g1"), ("title", Value.vStr "X")]] ∧
    Doc.get? (orderDoc c10Payload [("_id", Value.vOid "000000000000000000000000"),
                                   ("game_id", Value.vStr "g1"), ("title", Value.vStr "X")])
        "amount" = some (Value.vNum 0) ∧
    Doc.get? (orderDoc c10Payload [("_id", Value.vOid "000000000000000000000000"),
                                   ("game_id", Value.vStr "g1"), ("title", Value.vStr "X")])
        "credits" = some (Value.vNum 0) :=
  C10_missing_fields_default_zero c10Store c10Payload
    [("_id", Value.vOid "000000000000000000000000"),
     ("game_id", Value.vStr "g1"), ("title", Value.vStr "X")]
    (by decide) (by decide) (by decide) (by decide) (by decide)

/-- Reading back by the identifier just issued returns exactly the inserted
document, provided no earlier document of the collection carries it. -/
theorem find_one_inserted (l : List Doc) (d : Doc) (oid : String)
    (hfresh : ∀ x ∈ l, Doc.get? x "_id" ≠ some (Value.vOid oid)) :
    find_one (l ++ [("_id", Value.vOid oid) :: d]) [("_id", Value.vOid oid)]
      = some (("_id", Value.vOid oid) :: d) := by
  revert hfresh
  induction l with
  | nil =>
    intro _
    have hpos : matchesFilter (("_id", Value.vOid oid) :: d) [("_id", Value.vOid oid)] = true := by
      rw [matchesFilter_singleton]
      simp [Doc.get?]
    unfold find_one
    rw [List.nil_append, List.find?_cons]
    simp [hpos]
  | cons x rest ih =>
    intro hfresh
    have hx : matchesFilter x [("_id", Value.vOid oid)] = false := by
      have := hfresh x (List.mem_cons_self x rest)
      rw [matchesFilter_singleton]
      simpa using this
    unfold find_one at ih ⊢
    rw [List.cons_append, List.find?_cons]
    simp only [hx]
    exact ih (fun y hy => hfresh y (List.mem_cons_of_mem x hy))

/-- The success path of create_order as a whole: response and state. -/
theorem create_order_success_pair (s : Store) (p : CreateOrder) (opt : Doc)
    (hv : isValidObjectId p.option_id = true)
    (hfind : find_one s.topupoption [("_id", Value.vOid (strLower p.option_id))] = some opt)
    (hne : opt ≠ []) :
    create_order s p
      = (Except.ok (to_serializable ((find_one
            (s.order ++ [("_id", Value.vOid (genId s.nextId)) :: orderDoc p opt])
            [("_id", Value.vOid (strLower (genId s.nextId)))]).getD [])),
         { s with order := s.order ++ [("_id", Value.vOid (genId s.nextId)) :: orderDoc p opt],
                  nextId := s.nextId + 1 }) := by
  have h1 : ¬ isValidObjectId p.option_id = false := not_eq_false_of_eq_true hv
  have h2 : ¬ truthy (find_one s.topupoption [("_id", Value.vOid (strLower p.option_id))]) = false := by
    rw [hfind, truthy_some_of_ne_nil hne]; simp
  unfold create_order
  rw [if_neg h1]
  dsimp only
  rw [if_neg h2, hfind]
  rfl

/-- Claim C3: on every successful POST /api/orders, the returned (created,
serialized) order copies amount and credits from the TopupOption document
that option_id resolved to at creation time, and its status is pending. -/
theorem C3_created_order_copies_option (s : Store) (p : CreateOrder) (opt : Doc)
    (a : Rat) (c : Int)
    (hv : isValidObjectId p.option_id = true)
    (hfind : find_one s.topupoption [("_id", Value.vOid (strLower p.option_id))] = some opt)
    (hne : opt ≠ [])
    (ha : Doc.get? opt "amount" = some (Value.vNum a))
    (hc : Doc.get? opt "credits" = some (Value.vNum ((c : Int) : Rat)))
    (hfresh : ∀ d ∈ s.order, Doc.get? d "_id" ≠ some (Value.vOid (genId s.nextId))) :
    isOkResult (create_order s p).1 = true ∧
    Doc.get? (resultDoc (create_order s p).1) "amount" = some (Value.vNum a) ∧
    Doc.get? (resultDoc (create_order s p).1) "credits" = some (Value.vNum ((c : Int) : Rat)) ∧
    Doc.get? (resultDoc (create_order s p).1) "status" = some (Value.vStr "pending") := by
  have hpair := create_order_success_pair s p opt hv hfind hne
  have hro : (create_order s p).1
      = Except.ok (to_serializable (("_id", Value.vOid (genId s.nextId)) :: orderDoc p opt)) := by
    rw [hpair]
    dsimp only
    rw [strLower_genId, find_one_inserted s.order (orderDoc p opt) (genId s.nextId) hfresh]
    rfl
  have hsne : (("_id", Value.vOid (genId s.nextId)) :: orderDoc p opt) ≠ ([] : Doc) := by simp
  refine ⟨by rw [hro]; rfl, ?_, ?_, ?_⟩
  · rw [hro]
    show Doc.get? (to_serializable (("_id", Value.vOid (genId s.nextId)) :: orderDoc p opt))
      "amount" = some (Value.vNum a)
    rw [get?_to_serializable_other _ _ hsne (by decide) (by decide)]
    have hg : Doc.get? (("_id", Value.vOid (genId s.nextId)) :: orderDoc p opt) "amount"
        = some (Value.vNum (pyFloatVal ((Doc.get? opt "amount").getD (Value.vNum 0)))) := rfl
    rw [hg, ha]
    rfl
  · rw [hro]
    show Doc.get? (to_serializable (("_id", Value.vOid (genId s.nextId)) :: orderDoc p opt))
      "credits" = some (Value.vNum ((c : Int) : Rat))
    rw [get?_to_serializable_other _ _ hsne (by decide) (by decide)]
    have hg : Doc.get? (("_id", Value.vOid (genId s.nextId)) :: orderDoc p opt) "credits"
        = some (Value.vNum ((pyIntVal ((Doc.get? opt "credits").getD (Value.vNum 0)) : Int) : Rat)) := rfl
    rw [hg, hc]
    show (some (Value.vNum ((pyIntVal (Value.vNum ((c : Int) : Rat)) : Int) : Rat))).map dtConv
      = some (Value.vNum ((c : Int) : Rat))
    rw [pyIntVal_intCast]
    rfl
  · rw [hro]
    show Doc.get? (to_serializable (("_id", Value.vOid (genId s.nextId)) :: orderDoc p opt))
      "status" = some (Value.vStr "pending")
    rw [get?_to_serializable_other _ _ hsne (by decide) (by decide)]
    rfl

def c3Opt : Doc :=
  [("_id", Value.vOid "000000000000000000000000"), ("game_id", Value.vStr "g1"),
   ("title", Value.vStr "86 Diamonds"), ("amount", Value.vNum (1.59 : Rat)),
   ("credits", Value.vNum ((86 : Int) : Rat))]

def c3Store : Store := ⟨[], [c3Opt], [], 3⟩

def c3Payload : CreateOrder := ⟨"g1", "000000000000000000000000", "p1", none, "card"⟩

theorem C3_witness :
    isOkResult (create_order c3Store c3Payload).1 = true ∧
    Doc.get? (resultDoc (create_order c3Store c3Payload).1) "amount"
      = some (Value.vNum (1.59 : Rat)) ∧
    Doc.get? (resultDoc (create_order c3Store c3Payload).1) "credits"
      = some (Value.vNum ((86 : Int) : Rat)) ∧
    Doc.get? (resultDoc (create_order c3Store c3Payload).1) "status"
      = some (Value.vStr "pending") :=
  C3_created_order_copies_option c3Store c3Payload c3Opt (1.59 : Rat) 86
    (by decide) (by rfl) (by decide) (by rfl) (by rfl)
    (by intro d hd; simp [c3Store] at hd)

def c8GameDoc : Doc := [("_id", Value.vOid "aaaaaaaaaaaaaaaaaaaaaaaa"), ("code", Value.vStr "g")]

def c8OrderDoc : Doc := [("_id", Value.vOid "bbbbbbbbbbbbbbbbbbbbbbbb"), ("status", Value.vStr "pending")]

def c8Store : Store := ⟨[c8GameDoc], [], [c8OrderDoc], 9⟩

theorem C8_witness :
    c8OrderDoc ∈ (create_order c8Store ⟨"g", "aaaaaaaaaaaaaaaaaaaaaaaa", "p", none, "card"⟩).2.order ∧
    c8GameDoc ∈ (seed_data c8Store none).2.game := by
  have h := C8_handlers_never_update_or_delete c8Store
    ⟨"g", "aaaaaaaaaaaaaaaaaaaaaaaa", "p", none, "card"⟩ "c" "g" "o" none
  exact ⟨h.2.2.2.2.1.2.2 c8OrderDoc (by simp [c8Store]),
         h.2.2.2.2.2.1 c8GameDoc (by simp [c8Store])⟩

theorem find_one_code_none (s : Store) (code : String)
    (h : countGamesWithCode s code = 0) :
    find_one s.game [("code", Value.vStr code)] = none := by
  have hnil : s.game.filter (fun d => decide (Doc.get? d "code" = some (Value.vStr code))) = [] :=
    List.length_eq_zero.mp h
  unfold find_one
  rw [List.find?_eq_none]
  intro x hx
  have hxf := List.filter_eq_nil_iff.mp hnil x hx
  rw [matchesFilter_singleton]
  simpa using hxf

theorem foldl_create_topupoption_game (l : List Doc) (s : Store) (f : Doc → Doc) :
    (l.foldl (fun st p => (create_document st "topupoption" (f p)).2) s).game = s.game := by
  induction l generalizing s with
  | nil => rfl
  | cons p rest ih =>
    rw [List.foldl_cons, ih]
    exact (create_document_topupoption_other s (f p)).1

theorem seedOptionsLoop_game (gs : List Doc) (s : Store) :
    (seedOptionsLoop gs s).game = s.game := by
  induction gs generalizing s with
  | nil => rfl
  | cons g rest ih =>
    unfold seedOptionsLoop
    dsimp only
    split_ifs
    · rw [ih, foldl_create_topupoption_game]
    · rw [ih]

theorem find_one_append_last (l : List Doc) (x : Doc) (flt : Doc)
    (hl : ∀ y ∈ l, matchesFilter y flt = false)
    (hx : matchesFilter x flt = true) :
    find_one (l ++ [x]) flt = some x := by
  revert hl
  induction l with
  | nil =>
    intro _
    unfold find_one
    rw [List.nil_append, List.find?_cons]
    simp [hx]
  | cons y rest ih =>
    intro hl
    unfold find_one at ih ⊢
    rw [List.cons_append, List.find?_cons]
    simp only [hl y (List.mem_cons_self y rest)]
    exact ih (fun z hz => hl z (List.mem_cons_of_mem y hz))

/-- Claim C5: for a game descriptor whose code is not yet present, running
the seed endpoint twice with that descriptor leaves exactly one Game record
with that code: the first run inserts it, the second finds the existing
record by code and skips the insert. -/
theorem C5_seed_twice_one_game (s : Store) (g : SeedGame)
    (h : countGamesWithCode s g.code = 0) :
    countGamesWithCode (seed_data (seed_data s (some [g])).2 (some [g])).2 g.code = 1 := by
  have hf1 : find_one s.game [("code", Value.vStr g.code)] = none := find_one_code_none s g.code h
  have hloop1 : (seedGamesLoop [g] s []).2 = (create_document s "game" (seedGameDoc g)).2 := by
    unfold seedGamesLoop
    rw [hf1]
    rfl
  have hs1game : (seed_data s (some [g])).2.game
      = s.game ++ [("_id", Value.vOid (genId s.nextId)) :: seedGameDoc g] := by
    show (seedOptionsLoop (seedGamesLoop [g] s []).1 (seedGamesLoop [g] s []).2).game = _
    rw [seedOptionsLoop_game, hloop1, create_document_game_coll]
  have hnil : s.game.filter (fun d => decide (Doc.get? d "code" = some (Value.vStr g.code))) = [] :=
    List.length_eq_zero.mp h
  have hstored : Doc.get? (("_id", Value.vOid (genId s.nextId)) :: seedGameDoc g) "code"
      = some (Value.vStr g.code) := rfl
  have hcount1 : countGamesWithCode (seed_data s (some [g])).2 g.code = 1 := by
    unfold countGamesWithCode
    rw [hs1game, List.filter_append, hnil]
    simp [List.filter_cons, hstored]
  have hall : ∀ y ∈ s.game, matchesFilter y [("code", Value.vStr g.code)] = false := by
    intro y hy
    have hyf := List.filter_eq_nil_iff.mp hnil y hy
    rw [matchesFilter_singleton]
    simpa using hyf
  have hx : matchesFilter (("_id", Value.vOid (genId s.nextId)) :: seedGameDoc g)
      [("code", Value.vStr g.code)] = true := by
    rw [matchesFilter_singleton, hstored]
    simp
  have hf2 : find_one (seed_data s (some [g])).2.game [("code", Value.vStr g.code)]
      = some (("_id", Value.vOid (genId s.nextId)) :: seedGameDoc g) := by
    rw [hs1game]
    exact find_one_append_last s.game _ _ hall hx
  have hloop2 : (seedGamesLoop [g] (seed_data s (some [g])).2 []).2 = (seed_data s (some [g])).2 := by
    unfold seedGamesLoop
    rw [hf2]
    rfl
  have hseed2game : (seed_data (seed_data s (some [g])).2 (some [g])).2.game
      = (seed_data s (some [g])).2.game := by
    show (seedOptionsLoop (seedGamesLoop [g] (seed_data s (some [g])).2 []).1
            (seedGamesLoop [g] (seed_data s (some [g])).2 []).2).game = _
    rw [seedOptionsLoop_game, hloop2]
  calc countGamesWithCode (seed_data (seed_data s (some [g])).2 (some [g])).2 g.code
      = countGamesWithCode (seed_data s (some [g])).2 g.code := by
        unfold countGamesWithCode
        rw [hseed2game]
    _ = 1 := hcount1

theorem C5_witness :
    countGamesWithCode emptyStore "mlbb" = 0 ∧
    countGamesWithCode
      (seed_data (seed_data emptyStore (some [⟨"Mobile Legends", "mlbb", none, none⟩])).2
        (some [⟨"Mobile Legends", "mlbb", none, none⟩])).2 "mlbb" = 1 :=
  ⟨by decide, C5_seed_twice_one_game emptyStore ⟨"Mobile Legends", "mlbb", none, none⟩ (by decide)⟩
